import Mathlib

/-!
Verification of the structured-tool-agent loop
(`src/prompthippo/tool-calling-w-structured-out/structured_tool_agent.py`,
function `generate_structured_output`).

The Python function is embedded shallowly:

* A model response (LangChain `AIMessage`) carries a list of tool-call
  requests (`response.tool_calls`, each a dict with `name`, `args`, `id`);
  here it is `Response` with a list of `ToolCallReq`.  Argument mappings
  are association lists `List (String × String)`; the only facts the loop
  uses about them are emptiness (`if not structure_tool_call["args"]`) and
  being forwarded verbatim to a tool or to the schema constructor.
* Conversation messages (`BaseMessage`, `ToolMessage`) are `Message`.
* A registered tool (`@tool`-wrapped callable with `.name` and `.ainvoke`)
  is `Tool`; `invoke` returns `Except String String`, the `.error` case
  standing for a raised Python exception, the `.ok` case already holding
  the `str(...)`-ified tool output.
* The Pydantic output model (the `structure` parameter; `structure` is a
  Lean keyword, so the binder is named `schema`) is `Schema`: its `name`
  is `structure.__name__` and `build` is `structure(**args)` — Pydantic
  validation, an external collaborator, so it is a parameter; `.error`
  stands for a raised `ValidationError`.
* The LLM (`ChatOpenAI` plus its `bind_tools` / `with_structured_output`
  wrappers) is the environment `Env`: the n-th tools-bound `ainvoke`
  anywhere in one run returns `oracle n`, and the `with_structured_output`
  path returns `structuredOracle messages`.
* The embedding is instrumented: besides the returned value it records the
  trace of Model Client calls (which conversation each call received and
  under which tool binding) and the list of tool-call requests actually
  dispatched to a registered tool.  Raised exceptions that escape the
  function are explicit `AgentError` values.
-/

namespace StructuredToolAgent

/-- One entry of `response.tool_calls`: a dict with keys `name`, `args`
(argument mapping) and `id` (correlation id). -/
structure ToolCallReq where
  name : String
  args : List (String × String)
  callId : String
deriving DecidableEq, Repr

/-- A model turn (`AIMessage`): free-form content plus the requested
tool calls. -/
structure Response where
  content : String
  tool_calls : List ToolCallReq
deriving DecidableEq, Repr

/-- A conversation message.  `plain` covers the caller-supplied system /
human messages (their role and text are opaque to the loop), `assistant`
is a model turn appended at line 99, `toolMsg` is a `ToolMessage` with its
`content` and `tool_call_id`. -/
inductive Message where
  | plain (role : String) (content : String)
  | assistant (resp : Response)
  | toolMsg (content : String) (tool_call_id : String)
deriving DecidableEq, Repr

/-- A registered tool: `name` and `ainvoke` (the `.error` case is a raised
exception's message, the `.ok` case is the stringified result). -/
structure Tool where
  name : String
  invoke : List (String × String) → Except String String

/-- A validated instance of the output model is represented by its field
assignment. -/
abbrev SchemaInst := List (String × String)

/-- The Pydantic output model: `name` is `structure.__name__`; `build` is
`structure(**args)` (Pydantic validation, external to this repository:
`.error` is a raised `ValidationError`). -/
structure Schema where
  name : String
  build : List (String × String) → Except String SchemaInst

/-- The Model Client environment: `oracle n` is the response to the n-th
tools-bound model call of the run (counting from 0, in call order,
whatever the binding), `structuredOracle` is the
`with_structured_output` path used when no tools are given. -/
structure Env where
  oracle : Nat → Response
  structuredOracle : List Message → Except String SchemaInst

/-- The exceptions that can escape `generate_structured_output`. -/
inductive AgentError where
  | assertionFailed
  | malformedStructuredCall
  | validationError (msg : String)
deriving DecidableEq, Repr

/-- What the function hands back to the caller.  `structuredDirect` is the
no-tools fast path, `instOf` is `structure(**args)` from a schema tool
call, `rawTurn` is the value of the final
`llm_forced_structure.ainvoke(messages)` — the raw model turn, returned
as-is by line 103. -/
inductive AgentResult where
  | structuredDirect (inst : SchemaInst)
  | instOf (inst : SchemaInst)
  | rawTurn (resp : Response)
  | err (e : AgentError)
deriving DecidableEq, Repr

/-- One Model Client call of the trace: the conversation it received and
the binding it was made under.  `structuredMode` is
`llm.with_structured_output(structure)`, `toolsMode` is
`llm.bind_tools(tools + [structure], tool_choice="any")`, `forcedMode` is
`llm.bind_tools([structure], tool_choice="any")`. -/
inductive CallRecord where
  | structuredMode (msgs : List Message)
  | toolsMode (msgs : List Message)
  | forcedMode (msgs : List Message)
deriving DecidableEq, Repr

/-- The tool names a call's binding permits the model to select. -/
def allowedNames (schema : Schema) (tools : List Tool) : CallRecord → List String
  | .structuredMode _ => []
  | .toolsMode _ => tools.map Tool.name ++ [schema.name]
  | .forcedMode _ => [schema.name]

/-- Instrumented outcome of one run: the returned value, the trace of
Model Client calls in order, and the requests actually dispatched to a
registered tool. -/
structure RunOutcome where
  result : AgentResult
  calls : List CallRecord
  toolRuns : List ToolCallReq
deriving DecidableEq, Repr

/-- Lines 58–63: scan `response.tool_calls` for the first call whose
`name` equals `structure.__name__`. -/
def findSchemaCall (schema : Schema) (r : Response) : Option ToolCallReq :=
  r.tool_calls.find? (fun tc => tc.name == schema.name)

/-- Lines 76–96, one request: find the first registered tool with the
requested name and invoke it; success yields a `ToolMessage` with the
stringified result, a raised exception yields a `ToolMessage` whose
content is `"Error: " ++ str(e)`; if no tool matches, no message is
produced. -/
def runToolCall (tools : List Tool) (tc : ToolCallReq) : Option Message :=
  match tools.find? (fun t => t.name == tc.name) with
  | some t =>
    match t.invoke tc.args with
    | .ok s => some (.toolMsg s tc.callId)
    | .error e => some (.toolMsg ("Error: " ++ e) tc.callId)
  | none => none

/-- Lines 74–96: the `tool_messages` accumulated for one turn, in request
order. -/
def toolResponses (tools : List Tool) (tcs : List ToolCallReq) : List Message :=
  tcs.filterMap (runToolCall tools)

/-- The requests of a turn that are dispatched to some registered tool
(those with a matching name; the others are skipped). -/
def dispatchedCalls (tools : List Tool) (r : Response) : List ToolCallReq :=
  r.tool_calls.filter (fun tc => (tools.find? (fun t => t.name == tc.name)).isSome)

/-- The `ToolMessage` content `runToolCall` produces for a request that
matches a registered tool. -/
def toolOutcome (tools : List Tool) (tc : ToolCallReq) : String :=
  match tools.find? (fun t => t.name == tc.name) with
  | some t =>
    match t.invoke tc.args with
    | .ok s => s
    | .error e => "Error: " ++ e
  | none => ""

/-- Lines 57–103: the `for _ in range(max_executions - 1)` loop and the
final forced call.  `fuel` is the number of iterations left, `msgs` the
current conversation, `resp` the latest model turn, `idx` the index of
the next model call, `calls` and `runs` the trace so far.

* fuel exhausted (line 102–103): one final call bound to `[structure]`
  alone on the current `msgs` (note: `resp` is dropped — it was produced
  by the previous call but is never inspected nor appended), and its raw
  turn is returned.
* schema call found (lines 65–72): empty args raise (line 67); otherwise
  return `structure(**args)`.
* otherwise (lines 74–100): build the per-request tool messages, extend
  the conversation with the model turn and those messages, and re-invoke
  the tools-bound model on the extended conversation. -/
def loopGo (env : Env) (schema : Schema) (tools : List Tool) :
    Nat → List Message → Response → Nat → List CallRecord → List ToolCallReq → RunOutcome
  | 0, msgs, _resp, idx, calls, runs =>
    { result := .rawTurn (env.oracle idx)
      calls := calls ++ [.forcedMode msgs]
      toolRuns := runs }
  | fuel + 1, msgs, resp, idx, calls, runs =>
    match findSchemaCall schema resp with
    | some tc =>
      if tc.args.isEmpty then
        { result := .err .malformedStructuredCall, calls := calls, toolRuns := runs }
      else
        match schema.build tc.args with
        | .ok inst => { result := .instOf inst, calls := calls, toolRuns := runs }
        | .error e => { result := .err (.validationError e), calls := calls, toolRuns := runs }
    | none =>
      let msgs' := msgs ++ [Message.assistant resp] ++ toolResponses tools resp.tool_calls
      loopGo env schema tools fuel msgs' (env.oracle idx) (idx + 1)
        (calls ++ [.toolsMode msgs']) (runs ++ dispatchedCalls tools resp)

/-- Lines 11–103, `generate_structured_output`: assert the budget, take
the no-tools fast path when `tools` is empty, else make the initial
tools-bound call (line 53) and enter the loop with `max_executions - 1`
iterations. -/
def generate_structured_output (env : Env) (messages : List Message) (schema : Schema)
    (tools : List Tool) (max_executions : Nat) : RunOutcome :=
  if max_executions < 1 then
    { result := .err .assertionFailed, calls := [], toolRuns := [] }
  else if tools.isEmpty then
    match env.structuredOracle messages with
    | .ok inst =>
      { result := .structuredDirect inst, calls := [.structuredMode messages], toolRuns := [] }
    | .error e =>
      { result := .err (.validationError e), calls := [.structuredMode messages], toolRuns := [] }
  else
    loopGo env schema tools (max_executions - 1) messages (env.oracle 0) 1
      [.toolsMode messages] []

/-! ### The loop state after k schema-free turns

After the loop has processed `k` turns none of which contained a schema
call, the conversation, the call trace and the dispatched-request log are
the following explicit functions of the oracle's first `k` responses. -/

/-- The conversation after `k` schema-free turns have been appended. -/
def iterMsgs (env : Env) (tools : List Tool) (m0 : List Message) : Nat → List Message
  | 0 => m0
  | k + 1 =>
    iterMsgs env tools m0 k ++ [Message.assistant (env.oracle k)]
      ++ toolResponses tools (env.oracle k).tool_calls

/-- The tools-bound model calls made up to and including the one that
produced the turn inspected at iteration `k`. -/
def iterCalls (env : Env) (tools : List Tool) (m0 : List Message) : Nat → List CallRecord
  | 0 => [.toolsMode m0]
  | k + 1 => iterCalls env tools m0 k ++ [.toolsMode (iterMsgs env tools m0 (k + 1))]

/-- The requests dispatched to registered tools in the first `k`
schema-free turns. -/
def iterRuns (env : Env) (tools : List Tool) : Nat → List ToolCallReq
  | 0 => []
  | k + 1 => iterRuns env tools k ++ dispatchedCalls tools (env.oracle k)

/-- Whether a message is an appended model turn. -/
def isAssistant : Message → Bool
  | .assistant _ => true
  | _ => false

/-- How many model turns a conversation contains. -/
def countAssistants (ms : List Message) : Nat :=
  (ms.filter isAssistant).length

lemma iterCalls_length (env : Env) (tools : List Tool) (m0 : List Message) (k : Nat) :
    (iterCalls env tools m0 k).length = k + 1 := by
  induction k with
  | zero => rfl
  | succ k ih => simp [iterCalls, ih]

lemma iterCalls_getLast (env : Env) (tools : List Tool) (m0 : List Message) (k : Nat) :
    (iterCalls env tools m0 k).getLast? = some (.toolsMode (iterMsgs env tools m0 k)) := by
  cases k with
  | zero => rfl
  | succ k => simp [iterCalls]

lemma iterMsgs_congr (env env2 : Env) (tools : List Tool) (m0 : List Message) (k : Nat)
    (h : ∀ i, i < k → env2.oracle i = env.oracle i) :
    iterMsgs env2 tools m0 k = iterMsgs env tools m0 k := by
  induction k with
  | zero => rfl
  | succ k ih =>
    have hk := h k (Nat.lt_succ_self k)
    simp only [iterMsgs, ih (fun i hi => h i (Nat.lt_succ_of_lt hi)), hk]

/-- A produced tool message is a `toolMsg` carrying the request's id. -/
lemma runToolCall_shape (tools : List Tool) (tc : ToolCallReq) :
    runToolCall tools tc = none ∨
      ∃ c, runToolCall tools tc = some (.toolMsg c tc.callId) := by
  cases hf : tools.find? (fun t => t.name == tc.name) with
  | none => exact Or.inl (by simp [runToolCall, hf])
  | some t =>
    cases hi : t.invoke tc.args with
    | ok s => exact Or.inr ⟨s, by simp [runToolCall, hf, hi]⟩
    | error e => exact Or.inr ⟨"Error: " ++ e, by simp [runToolCall, hf, hi]⟩

lemma countAssistants_toolResponses (tools : List Tool) (tcs : List ToolCallReq) :
    countAssistants (toolResponses tools tcs) = 0 := by
  induction tcs with
  | nil => rfl
  | cons tc rest ih =>
    rcases runToolCall_shape tools tc with h | ⟨c, h⟩ <;>
      simp [toolResponses, List.filterMap_cons, h, countAssistants, isAssistant] <;>
      simpa [toolResponses, countAssistants] using ih

lemma countAssistants_append (a b : List Message) :
    countAssistants (a ++ b) = countAssistants a + countAssistants b := by
  simp [countAssistants, List.filter_append]

lemma countAssistants_iterMsgs (env : Env) (tools : List Tool) (m0 : List Message) (k : Nat) :
    countAssistants (iterMsgs env tools m0 k) = countAssistants m0 + k := by
  induction k with
  | zero => rfl
  | succ k ih =>
    simp only [iterMsgs, countAssistants_append, ih, countAssistants_toolResponses]
    simp [countAssistants, isAssistant]
    omega

/-- `toolResponses` produces exactly one message per request with a
matching registered tool (carrying that request's correlation id, in
request order) and none for the others. -/
lemma toolResponses_eq_map (tools : List Tool) (tcs : List ToolCallReq) :
    toolResponses tools tcs
      = (tcs.filter (fun tc => (tools.find? (fun t => t.name == tc.name)).isSome)).map
          (fun tc => .toolMsg (toolOutcome tools tc) tc.callId) := by
  induction tcs with
  | nil => rfl
  | cons tc rest ih =>
    by_cases h : (tools.find? (fun t => t.name == tc.name)).isSome
    · obtain ⟨t, ht⟩ := Option.isSome_iff_exists.mp h
      have hout : runToolCall tools tc
          = some (.toolMsg (toolOutcome tools tc) tc.callId) := by
        cases hinv : t.invoke tc.args with
        | ok s => simp [runToolCall, toolOutcome, ht, hinv]
        | error e => simp [runToolCall, toolOutcome, ht, hinv]
      calc toolResponses tools (tc :: rest)
          = Message.toolMsg (toolOutcome tools tc) tc.callId :: toolResponses tools rest := by
            simp [toolResponses, List.filterMap_cons, hout]
        _ = _ := by simp [List.filter_cons, h, ih]
    · have hn : tools.find? (fun t => t.name == tc.name) = none :=
        Option.not_isSome_iff_eq_none.mp h
      have hout : runToolCall tools tc = none := by simp [runToolCall, hn]
      calc toolResponses tools (tc :: rest) = toolResponses tools rest := by
            simp [toolResponses, List.filterMap_cons, hout]
        _ = _ := by simp [List.filter_cons, h, ih]

/-- Entering the loop: with a positive budget and a non-empty tool list,
`generate_structured_output` is the loop started on the initial call's
response. -/
lemma gso_with_tools (env : Env) (m0 : List Message) (schema : Schema)
    (tools : List Tool) (B : Nat) (hB : 1 ≤ B) (ht : tools ≠ []) :
    generate_structured_output env m0 schema tools B
      = loopGo env schema tools (B - 1) m0 (env.oracle 0) 1 [.toolsMode m0] [] := by
  have h1 : ¬ B < 1 := by omega
  cases tools with
  | nil => exact absurd rfl ht
  | cons t ts => simp [generate_structured_output, h1]

/-- Running the loop past `k` schema-free turns reaches the state
described by `iterMsgs` / `iterCalls` / `iterRuns`. -/
lemma loopGo_iterate (env : Env) (schema : Schema) (tools : List Tool) (m0 : List Message)
    (k : Nat) (h : ∀ i, i < k → findSchemaCall schema (env.oracle i) = none) (fuel : Nat) :
    loopGo env schema tools (k + fuel) m0 (env.oracle 0) 1 [.toolsMode m0] []
      = loopGo env schema tools fuel (iterMsgs env tools m0 k) (env.oracle k) (k + 1)
          (iterCalls env tools m0 k) (iterRuns env tools k) := by
  induction k generalizing fuel with
  | zero => simp [iterMsgs, iterCalls, iterRuns]
  | succ k ih =>
    have hk : ∀ i, i < k → findSchemaCall schema (env.oracle i) = none :=
      fun i hi => h i (Nat.lt_succ_of_lt hi)
    have hstep : findSchemaCall schema (env.oracle k) = none := h k (Nat.lt_succ_self k)
    have e1 : k + 1 + fuel = k + (fuel + 1) := by omega
    rw [e1, ih hk (fuel + 1)]
    simp [loopGo, hstep, iterMsgs, iterCalls, iterRuns]

/-- The trace of a loop run extends the accumulated trace. -/
lemma loopGo_calls_extends (env : Env) (schema : Schema) (tools : List Tool) :
    ∀ (fuel : Nat) (msgs : List Message) (resp : Response) (idx : Nat)
      (calls : List CallRecord) (runs : List ToolCallReq),
      ∃ t, (loopGo env schema tools fuel msgs resp idx calls runs).calls = calls ++ t := by
  intro fuel
  induction fuel with
  | zero => exact fun msgs resp idx calls runs => ⟨[.forcedMode msgs], rfl⟩
  | succ n ih =>
    intro msgs resp idx calls runs
    cases hfs : findSchemaCall schema resp with
    | some tc =>
      by_cases he : tc.args.isEmpty
      · exact ⟨[], by simp [loopGo, hfs, he]⟩
      · cases hb : schema.build tc.args with
        | ok inst => exact ⟨[], by simp [loopGo, hfs, he, hb]⟩
        | error e => exact ⟨[], by simp [loopGo, hfs, he, hb]⟩
    | none =>
      obtain ⟨t, ht⟩ := ih
        (msgs ++ [Message.assistant resp] ++ toolResponses tools resp.tool_calls)
        (env.oracle idx) (idx + 1)
        (calls ++ [.toolsMode
          (msgs ++ [Message.assistant resp] ++ toolResponses tools resp.tool_calls)])
        (runs ++ dispatchedCalls tools resp)
      refine ⟨[.toolsMode
          (msgs ++ [Message.assistant resp] ++ toolResponses tools resp.tool_calls)] ++ t, ?_⟩
      simp only [loopGo, hfs]
      simpa using ht

/-! ### Concrete fixtures

A small environment mirroring the repository's own example: the
`BookOutput` schema, an `add`-style tool, a tool that always raises, and
model responses that request them. -/

/-- The output model of the example, with a validator that accepts any
field assignment (validation itself is external). -/
def bookSchema : Schema := { name := "BookOutput", build := fun a => .ok a }

/-- A tool that always succeeds. -/
def addTool : Tool := { name := "add", invoke := fun _ => .ok "3.0" }

/-- A tool that always raises. -/
def boomTool : Tool := { name := "boom", invoke := fun _ => .error "division by zero" }

/-- The initial conversation. -/
def msgs0 : List Message := [.plain "system" "You are classifying books."]

/-- A request for the `add` tool. -/
def addReq : ToolCallReq := { name := "add", args := [("a", "1"), ("b", "2")], callId := "call_1" }

/-- A turn that only requests the `add` tool (never the schema). -/
def respAdd : Response := { content := "", tool_calls := [addReq] }

/-- An environment whose model always requests the `add` tool and never
the schema. -/
def envAdd : Env := { oracle := fun _ => respAdd, structuredOracle := fun _ => .ok [] }

/-- A schema tool call with non-empty arguments. -/
def schemaReq : ToolCallReq :=
  { name := "BookOutput", args := [("target_audience", "kids"), ("reading_level", "2")],
    callId := "call_2" }

/-- Another `add` request, emitted in the same turn as `schemaReq`. -/
def extraReq : ToolCallReq := { name := "add", args := [("a", "5"), ("b", "6")], callId := "call_3" }

/-- A turn that selects the schema (and also requests `add`). -/
def respSchemaKids : Response := { content := "", tool_calls := [schemaReq, extraReq] }

/-- An environment whose model requests `add` on the first turn and
selects the schema on the second. -/
def envSchemaAt1 : Env :=
  { oracle := fun n => if n = 1 then respSchemaKids else respAdd,
    structuredOracle := fun _ => .ok [] }

/-- A request for a name no registered tool carries. -/
def mysteryReq : ToolCallReq := { name := "mystery", args := [("x", "1")], callId := "call_u" }

/-- A turn that only requests the unknown `mystery` tool. -/
def respMystery : Response := { content := "", tool_calls := [mysteryReq] }

/-- An environment whose model always requests the unknown tool. -/
def envMystery : Env := { oracle := fun _ => respMystery, structuredOracle := fun _ => .ok [] }

/-- A turn requesting the unknown tool and then the `add` tool. -/
def respMysteryAdd : Response := { content := "", tool_calls := [mysteryReq, addReq] }

/-- A request for the always-raising tool. -/
def boomReq : ToolCallReq := { name := "boom", args := [("x", "1")], callId := "call_b" }

/-- A turn that requests the always-raising tool. -/
def respBoom : Response := { content := "", tool_calls := [boomReq] }

/-- A schema tool call with non-empty arguments, first in its turn. -/
def schemaFirstReq : ToolCallReq :=
  { name := "BookOutput", args := [("target_audience", "adult")], callId := "call_f" }

/-- A schema tool call with empty arguments. -/
def schemaEmptyReq : ToolCallReq := { name := "BookOutput", args := [], callId := "call_e" }

/-- A turn carrying two schema calls: the first with non-empty arguments,
the second with empty arguments. -/
def respTwoSchema : Response := { content := "", tool_calls := [schemaFirstReq, schemaEmptyReq] }

/-- An environment whose model always emits `respTwoSchema`. -/
def envTwoSchema : Env := { oracle := fun _ => respTwoSchema, structuredOracle := fun _ => .ok [] }

/-- A turn carrying two schema calls: the first with empty arguments,
the second with non-empty arguments. -/
def respEmptyFirst : Response := { content := "", tool_calls := [schemaEmptyReq, schemaFirstReq] }

/-- An environment whose model always emits `respEmptyFirst`. -/
def envEmptyFirst : Env :=
  { oracle := fun _ => respEmptyFirst, structuredOracle := fun _ => .ok [] }

/-- A turn whose only tool call is a schema call with empty arguments. -/
def respEmptySchema : Response := { content := "", tool_calls := [schemaEmptyReq] }

/-- An environment whose model always emits the empty-argument schema
call. -/
def envEmptySchema : Env :=
  { oracle := fun _ => respEmptySchema, structuredOracle := fun _ => .ok [] }

/-! ### Claims -/

/-- C1: the claim states that one invocation with `budget ≥ 1`, a
non-empty tool list and any model responses issues at most `budget` Model
Client calls.  The code refutes it: with `budget = 1` and a model that
never selects the schema, the run makes two calls (the unconditional
initial tools-bound call of line 53 plus the forced schema-only call of
line 103); in general the never-schema path makes `budget + 1` calls. -/
theorem c1_two_calls_on_budget_one :
    (generate_structured_output envAdd msgs0 bookSchema [addTool] 1).calls.length = 2 := by
  rfl

/-- C2: the claim states the function always returns a schema-validated
value or fails explicitly, the forced-completion branch in particular
never returning a raw model turn.  The code refutes it: with `budget = 1`
and tools, the forced branch returns the raw turn of
`llm_forced_structure.ainvoke(messages)` unparsed and unvalidated. -/
theorem c2_forced_branch_returns_raw_turn :
    (generate_structured_output envAdd msgs0 bookSchema [addTool] 1).result
      = .rawTurn respAdd := by
  rfl

/-- C3: the claim states that when the model never selects the schema in
the `budget − 1` free iterations, one forced schema-only call is issued,
its result returned, and the total number of Model Client calls equals
`budget`.  The forced call and its restriction to the schema are as
claimed, but the total is `budget + 1`: with `budget = 2` the trace holds
three calls, the last being the forced one. -/
theorem c3_total_calls_exceed_budget :
    (generate_structured_output envAdd msgs0 bookSchema [addTool] 2).calls.length = 3 ∧
    (generate_structured_output envAdd msgs0 bookSchema [addTool] 2).calls.getLast?
      = some (.forcedMode (iterMsgs envAdd [addTool] msgs0 1)) ∧
    allowedNames bookSchema [addTool] (.forcedMode (iterMsgs envAdd [addTool] msgs0 1))
      = ["BookOutput"] ∧
    (generate_structured_output envAdd msgs0 bookSchema [addTool] 2).result
      = .rawTurn (envAdd.oracle 2) := by
  exact ⟨by rfl, by rfl, by rfl, by rfl⟩

/-- C9: with an empty tool list and any `budget ≥ 1`, the run makes
exactly one Model Client call, in structured mode on the initial
conversation, and hands its result (or its validation failure) back
unchanged; `budget` does not appear in the outcome. -/
theorem c9_no_tools_single_structured_call (env : Env) (m0 : List Message) (schema : Schema)
    (B : Nat) (hB : 1 ≤ B) :
    generate_structured_output env m0 schema [] B
      = { result :=
            match env.structuredOracle m0 with
            | .ok inst => .structuredDirect inst
            | .error e => .err (.validationError e),
          calls := [.structuredMode m0], toolRuns := [] } := by
  have h1 : ¬ B < 1 := by omega
  cases h : env.structuredOracle m0 <;> simp [generate_structured_output, h1, h]

/-- Witness for C9 at `budget = 5`. -/
theorem c9_no_tools_single_structured_call_witness :
    generate_structured_output envAdd msgs0 bookSchema [] 5
      = { result :=
            match envAdd.structuredOracle msgs0 with
            | .ok inst => .structuredDirect inst
            | .error e => .err (.validationError e),
          calls := [.structuredMode msgs0], toolRuns := [] } :=
  c9_no_tools_single_structured_call envAdd msgs0 bookSchema 5 (by omega)

/-- C10: on the forced-completion path the conversation handed to the
final schema-only call is exactly the conversation of the last in-loop
tools-bound call — the turn that call produced is never appended (the
forced conversation holds only `budget − 1` appended model turns although
`budget` tools-bound calls were made) and never inspected (the forced
conversation is unchanged under any environment that agrees with `env` on
the first `budget − 1` responses). -/
theorem c10_forced_call_omits_last_response (env : Env) (tools : List Tool) (schema : Schema)
    (m0 : List Message) (B : Nat) (env2 : Env) (hB : 1 ≤ B) (htools : tools ≠ [])
    (hns : ∀ i, i < B - 1 → findSchemaCall schema (env.oracle i) = none)
    (h2 : ∀ i, i < B - 1 → env2.oracle i = env.oracle i) :
    (generate_structured_output env m0 schema tools B).calls
        = iterCalls env tools m0 (B - 1) ++ [.forcedMode (iterMsgs env tools m0 (B - 1))] ∧
    (iterCalls env tools m0 (B - 1)).getLast?
        = some (.toolsMode (iterMsgs env tools m0 (B - 1))) ∧
    (generate_structured_output env m0 schema tools B).result = .rawTurn (env.oracle B) ∧
    countAssistants (iterMsgs env tools m0 (B - 1)) = countAssistants m0 + (B - 1) ∧
    iterMsgs env2 tools m0 (B - 1) = iterMsgs env tools m0 (B - 1) := by
  have hb : B - 1 + 1 = B := by omega
  rw [gso_with_tools env m0 schema tools B hB htools]
  have hiter := loopGo_iterate env schema tools m0 (B - 1) hns 0
  rw [Nat.add_zero] at hiter
  rw [hiter]
  refine ⟨by simp [loopGo], iterCalls_getLast env tools m0 (B - 1), ?_,
    countAssistants_iterMsgs env tools m0 (B - 1),
    iterMsgs_congr env env2 tools m0 (B - 1) h2⟩
  simp [loopGo, hb]

/-- Witness for C10 at `budget = 2` with a model that always requests the
`add` tool, against a second environment agreeing on the first response
only. -/
theorem c10_forced_call_omits_last_response_witness :
    (generate_structured_output envAdd msgs0 bookSchema [addTool] 2).calls
        = iterCalls envAdd [addTool] msgs0 1 ++ [.forcedMode (iterMsgs envAdd [addTool] msgs0 1)] ∧
    (iterCalls envAdd [addTool] msgs0 1).getLast?
        = some (.toolsMode (iterMsgs envAdd [addTool] msgs0 1)) ∧
    (generate_structured_output envAdd msgs0 bookSchema [addTool] 2).result
        = .rawTurn (envAdd.oracle 2) ∧
    countAssistants (iterMsgs envAdd [addTool] msgs0 1) = countAssistants msgs0 + 1 ∧
    iterMsgs envSchemaAt1 [addTool] msgs0 1 = iterMsgs envAdd [addTool] msgs0 1 :=
  c10_forced_call_omits_last_response envAdd [addTool] bookSchema msgs0 2 envSchemaAt1
    (by omega) (by simp)
    (by intro i hi; have h0 : i = 0 := Nat.lt_one_iff.mp hi; subst h0; rfl)
    (by intro i hi; have h0 : i = 0 := Nat.lt_one_iff.mp hi; subst h0; rfl)

/-- Indexing an append right after its left part. -/
lemma getAt_append {α : Type} (as : List α) (x : α) (bs : List α) (n : Nat)
    (h : as.length = n) : (as ++ x :: bs)[n]? = some x := by
  subst h
  induction as with
  | nil => simp
  | cons a as ih => simpa using ih

/-- C4 counterexample: the claim states that a free-iteration turn
containing a schema-named call with non-empty arguments makes the run
return the instance built from those arguments.  In this run the
inspected turn contains such a call (`schemaFirstReq`, second in the
turn), but an empty-argument schema call precedes it; lines 60–67 take
the first schema-named call only and raise the malformed
structured-call error instead of returning the instance. -/
theorem c4_counterexample_earlier_empty_schema_call :
    schemaFirstReq ∈ respEmptyFirst.tool_calls ∧
    schemaFirstReq.name = bookSchema.name ∧
    schemaFirstReq.args ≠ [] ∧
    (generate_structured_output envEmptyFirst msgs0 bookSchema [addTool] 2).result
        = .err .malformedStructuredCall ∧
    (generate_structured_output envEmptyFirst msgs0 bookSchema [addTool] 2).result
        ≠ .instOf schemaFirstReq.args := by
  exact ⟨by decide, by rfl, by decide, by rfl, by decide⟩

/-- C4 (amended): if the first `k` turns carry no schema call and the
first schema-named call of turn `k` (still a free iteration: the budget
exceeds `k + 1`) has non-empty arguments, the run returns the instance
built from that call's arguments, its trace stops at the `k + 1` Model
Client calls already made, and the only requests ever dispatched to
tools are those of the earlier turns — none from turn `k`. -/
theorem c4_schema_call_short_circuits (env : Env) (schema : Schema) (tools : List Tool)
    (m0 : List Message) (k fuel : Nat) (tc : ToolCallReq) (inst : SchemaInst)
    (htools : tools ≠ [])
    (hpre : ∀ i, i < k → findSchemaCall schema (env.oracle i) = none)
    (hfind : findSchemaCall schema (env.oracle k) = some tc)
    (hargs : tc.args ≠ [])
    (hbuild : schema.build tc.args = .ok inst) :
    (generate_structured_output env m0 schema tools (k + fuel + 2)).result = .instOf inst ∧
    (generate_structured_output env m0 schema tools (k + fuel + 2)).calls
        = iterCalls env tools m0 k ∧
    (generate_structured_output env m0 schema tools (k + fuel + 2)).calls.length = k + 1 ∧
    (generate_structured_output env m0 schema tools (k + fuel + 2)).toolRuns
        = iterRuns env tools k := by
  have hB : 1 ≤ k + fuel + 2 := by omega
  have hne : tc.args.isEmpty = false := by
    cases h : tc.args with
    | nil => exact absurd h hargs
    | cons a l => rfl
  rw [gso_with_tools env m0 schema tools _ hB htools]
  have e : k + fuel + 2 - 1 = k + (fuel + 1) := by omega
  rw [e, loopGo_iterate env schema tools m0 k hpre (fuel + 1)]
  simp [loopGo, hfind, hne, hbuild, iterCalls_length]

/-- Witness for C4: schema selected on the second turn (`k = 1`) of a
budget-3 run, alongside a further `add` request that is not dispatched. -/
theorem c4_schema_call_short_circuits_witness :
    (generate_structured_output envSchemaAt1 msgs0 bookSchema [addTool] (1 + 0 + 2)).result
        = .instOf schemaReq.args ∧
    (generate_structured_output envSchemaAt1 msgs0 bookSchema [addTool] (1 + 0 + 2)).calls
        = iterCalls envSchemaAt1 [addTool] msgs0 1 ∧
    (generate_structured_output envSchemaAt1 msgs0 bookSchema [addTool] (1 + 0 + 2)).calls.length
        = 1 + 1 ∧
    (generate_structured_output envSchemaAt1 msgs0 bookSchema [addTool] (1 + 0 + 2)).toolRuns
        = iterRuns envSchemaAt1 [addTool] 1 :=
  c4_schema_call_short_circuits envSchemaAt1 bookSchema [addTool] msgs0 1 0 schemaReq
    schemaReq.args (by simp)
    (by intro i hi; have h0 : i = 0 := Nat.lt_one_iff.mp hi; subst h0; rfl)
    (by rfl) (by simp [schemaReq]) (by rfl)

/-- C5 counterexample: the claim states that every tool-call request of a
schema-free turn — including one whose name matches no registered tool —
receives exactly one ToolResult before the conversation is replayed.  In
this run the inspected turn holds one request, for the unregistered
`mystery` tool, and the conversation replayed to the model (and later to
the forced call) holds the assistant turn and no tool message at all. -/
theorem c5_counterexample_unknown_gets_no_result :
    (generate_structured_output envMystery msgs0 bookSchema [addTool] 2).calls
      = [.toolsMode msgs0,
         .toolsMode (msgs0 ++ [.assistant respMystery]),
         .forcedMode (msgs0 ++ [.assistant respMystery])] ∧
    respMystery.tool_calls.length = 1 := by
  exact ⟨by rfl, by rfl⟩

/-- C5 (amended): every request of a schema-free turn whose name matches
a registered tool receives exactly one ToolResult — carrying its
correlation id, in request order — appended to the conversation before it
is replayed to the Model Client; requests matching no registered tool
receive none. -/
theorem c5_amended_matched_requests_get_results (env : Env) (schema : Schema)
    (tools : List Tool) (m0 : List Message) (k fuel : Nat)
    (htools : tools ≠ [])
    (hpre : ∀ i, i ≤ k → findSchemaCall schema (env.oracle i) = none) :
    (generate_structured_output env m0 schema tools (k + fuel + 2)).calls[k + 1]?
        = some (.toolsMode (iterMsgs env tools m0 (k + 1))) ∧
    iterMsgs env tools m0 (k + 1)
        = iterMsgs env tools m0 k ++ [Message.assistant (env.oracle k)]
            ++ toolResponses tools (env.oracle k).tool_calls ∧
    toolResponses tools (env.oracle k).tool_calls
        = ((env.oracle k).tool_calls.filter
            (fun tc => (tools.find? (fun t => t.name == tc.name)).isSome)).map
            (fun tc => .toolMsg (toolOutcome tools tc) tc.callId) := by
  refine ⟨?_, rfl, toolResponses_eq_map tools (env.oracle k).tool_calls⟩
  have hB : 1 ≤ k + fuel + 2 := by omega
  have hpre' : ∀ i, i < k + 1 → findSchemaCall schema (env.oracle i) = none :=
    fun i hi => hpre i (Nat.lt_succ_iff.mp hi)
  rw [gso_with_tools env m0 schema tools _ hB htools]
  have e : k + fuel + 2 - 1 = (k + 1) + fuel := by omega
  rw [e, loopGo_iterate env schema tools m0 (k + 1) hpre' fuel]
  obtain ⟨t, ht⟩ := loopGo_calls_extends env schema tools fuel
    (iterMsgs env tools m0 (k + 1)) (env.oracle (k + 1)) (k + 1 + 1)
    (iterCalls env tools m0 (k + 1)) (iterRuns env tools (k + 1))
  rw [ht]
  have hsplit : iterCalls env tools m0 (k + 1) ++ t
      = iterCalls env tools m0 k ++ (CallRecord.toolsMode (iterMsgs env tools m0 (k + 1)) :: t) := by
    simp [iterCalls]
  rw [hsplit]
  exact getAt_append _ _ _ _ (iterCalls_length env tools m0 k)

/-- Witness for C5 (amended) at `k = 0` with the matched `add` request. -/
theorem c5_amended_matched_requests_get_results_witness :
    (generate_structured_output envAdd msgs0 bookSchema [addTool] (0 + 0 + 2)).calls[0 + 1]?
        = some (.toolsMode (iterMsgs envAdd [addTool] msgs0 (0 + 1))) ∧
    iterMsgs envAdd [addTool] msgs0 (0 + 1)
        = iterMsgs envAdd [addTool] msgs0 0 ++ [Message.assistant (envAdd.oracle 0)]
            ++ toolResponses [addTool] (envAdd.oracle 0).tool_calls ∧
    toolResponses [addTool] (envAdd.oracle 0).tool_calls
        = (((envAdd.oracle 0).tool_calls.filter
            (fun tc => (([addTool] : List Tool).find? (fun t => t.name == tc.name)).isSome))).map
            (fun tc => .toolMsg (toolOutcome [addTool] tc) tc.callId) :=
  c5_amended_matched_requests_get_results envAdd bookSchema [addTool] msgs0 0 0
    (by simp) (fun i _ => rfl)

/-- C6: a request of a schema-free turn whose name matches no registered
tool is silently skipped — `runToolCall` produces no message for it, the
turn's tool messages are exactly those of the remaining requests, and the
loop proceeds to the next Model Client call rather than raising. -/
theorem c6_unknown_tool_silently_skipped
    (tools : List Tool) (tc : ToolCallReq) (pre post : List ToolCallReq)
    (env : Env) (schema : Schema) (m0 : List Message) (resp : Response)
    (fuel idx : Nat) (calls : List CallRecord) (runs : List ToolCallReq)
    (hunknown : ∀ t ∈ tools, t.name ≠ tc.name)
    (hresp : resp.tool_calls = pre ++ tc :: post)
    (hnoschema : findSchemaCall schema resp = none) :
    runToolCall tools tc = none ∧
    toolResponses tools resp.tool_calls
        = toolResponses tools pre ++ toolResponses tools post ∧
    loopGo env schema tools (fuel + 1) m0 resp idx calls runs
      = loopGo env schema tools fuel
          (m0 ++ [Message.assistant resp] ++ toolResponses tools resp.tool_calls)
          (env.oracle idx) (idx + 1)
          (calls ++ [.toolsMode (m0 ++ [Message.assistant resp]
              ++ toolResponses tools resp.tool_calls)])
          (runs ++ dispatchedCalls tools resp) := by
  have hfind : tools.find? (fun t => t.name == tc.name) = none := by
    rw [List.find?_eq_none]
    intro x hx
    simpa using hunknown x hx
  have h1 : runToolCall tools tc = none := by simp [runToolCall, hfind]
  refine ⟨h1, ?_, ?_⟩
  · rw [hresp]
    simp [toolResponses, List.filterMap_append, List.filterMap_cons, h1]
  · simp only [loopGo, hnoschema]

/-- Witness for C6: the `mystery` request is skipped while the `add`
request of the same turn is answered. -/
theorem c6_unknown_tool_silently_skipped_witness :
    runToolCall [addTool] mysteryReq = none ∧
    toolResponses [addTool] respMysteryAdd.tool_calls
        = toolResponses [addTool] [] ++ toolResponses [addTool] [addReq] ∧
    loopGo envAdd bookSchema [addTool] (0 + 1) msgs0 respMysteryAdd 1 [.toolsMode msgs0] []
      = loopGo envAdd bookSchema [addTool] 0
          (msgs0 ++ [Message.assistant respMysteryAdd]
              ++ toolResponses [addTool] respMysteryAdd.tool_calls)
          (envAdd.oracle 1) (1 + 1)
          ([.toolsMode msgs0] ++ [.toolsMode (msgs0 ++ [Message.assistant respMysteryAdd]
              ++ toolResponses [addTool] respMysteryAdd.tool_calls)])
          ([] ++ dispatchedCalls [addTool] respMysteryAdd) :=
  c6_unknown_tool_silently_skipped [addTool] mysteryReq [] [addReq] envAdd bookSchema msgs0
    respMysteryAdd 0 1 [.toolsMode msgs0] []
    (by intro t ht; simp at ht; subst ht; simp [addTool, mysteryReq])
    (by rfl) (by rfl)

/-- C7: when the first registered tool matching a request raises, the
loop does not raise: a ToolResult whose content is the error description
and which carries the request's correlation id is produced, it appears
among the turn's appended tool messages, and the loop proceeds to the
next Model Client call. -/
theorem c7_tool_failure_recovered (tools : List Tool) (t : Tool) (tc : ToolCallReq) (e : String)
    (env : Env) (schema : Schema) (m0 : List Message) (resp : Response)
    (fuel idx : Nat) (calls : List CallRecord) (runs : List ToolCallReq)
    (hfind : tools.find? (fun u => u.name == tc.name) = some t)
    (hfail : t.invoke tc.args = .error e)
    (hmem : tc ∈ resp.tool_calls)
    (hnoschema : findSchemaCall schema resp = none) :
    runToolCall tools tc = some (.toolMsg ("Error: " ++ e) tc.callId) ∧
    Message.toolMsg ("Error: " ++ e) tc.callId ∈ toolResponses tools resp.tool_calls ∧
    loopGo env schema tools (fuel + 1) m0 resp idx calls runs
      = loopGo env schema tools fuel
          (m0 ++ [Message.assistant resp] ++ toolResponses tools resp.tool_calls)
          (env.oracle idx) (idx + 1)
          (calls ++ [.toolsMode (m0 ++ [Message.assistant resp]
              ++ toolResponses tools resp.tool_calls)])
          (runs ++ dispatchedCalls tools resp) := by
  have h1 : runToolCall tools tc = some (.toolMsg ("Error: " ++ e) tc.callId) := by
    simp [runToolCall, hfind, hfail]
  refine ⟨h1, ?_, ?_⟩
  · unfold toolResponses
    exact List.mem_filterMap.mpr ⟨tc, hmem, h1⟩
  · simp only [loopGo, hnoschema]

/-- Witness for C7: the always-raising `boom` tool yields an error
ToolResult and the loop proceeds. -/
theorem c7_tool_failure_recovered_witness :
    runToolCall [boomTool] boomReq
        = some (.toolMsg ("Error: " ++ "division by zero") boomReq.callId) ∧
    Message.toolMsg ("Error: " ++ "division by zero") boomReq.callId
        ∈ toolResponses [boomTool] respBoom.tool_calls ∧
    loopGo envAdd bookSchema [boomTool] (0 + 1) msgs0 respBoom 1 [.toolsMode msgs0] []
      = loopGo envAdd bookSchema [boomTool] 0
          (msgs0 ++ [Message.assistant respBoom] ++ toolResponses [boomTool] respBoom.tool_calls)
          (envAdd.oracle 1) (1 + 1)
          ([.toolsMode msgs0] ++ [.toolsMode (msgs0 ++ [Message.assistant respBoom]
              ++ toolResponses [boomTool] respBoom.tool_calls)])
          ([] ++ dispatchedCalls [boomTool] respBoom) :=
  c7_tool_failure_recovered [boomTool] boomTool boomReq "division by zero" envAdd bookSchema
    msgs0 respBoom 0 1 [.toolsMode msgs0] []
    (by rfl) (by rfl) (by simp [respBoom]) (by rfl)

/-- C8 counterexample: the claim states that a turn containing a
schema-named call with empty arguments makes the run raise the malformed
structured-call error.  In this run the inspected turn contains such a
call (`schemaEmptyReq`, second in the turn) after a schema call with
non-empty arguments; the code takes the first schema-named call only and
returns its instance — no error is raised. -/
theorem c8_counterexample_empty_args_not_fatal :
    respTwoSchema.tool_calls.contains schemaEmptyReq = true ∧
    schemaEmptyReq.name = bookSchema.name ∧
    schemaEmptyReq.args = [] ∧
    (generate_structured_output envTwoSchema msgs0 bookSchema [addTool] 2).result
      = .instOf [("target_audience", "adult")] := by
  exact ⟨by rfl, by rfl, by rfl, by rfl⟩

/-- C8 (amended): if the first `k` turns carry no schema call and the
first schema-named call of turn `k` (a free iteration) has empty
arguments, the run raises the malformed structured-call error and makes
no Model Client call beyond the `k + 1` already made. -/
theorem c8_amended_first_schema_call_empty_args_fatal (env : Env) (schema : Schema)
    (tools : List Tool) (m0 : List Message) (k fuel : Nat) (tc : ToolCallReq)
    (htools : tools ≠ [])
    (hpre : ∀ i, i < k → findSchemaCall schema (env.oracle i) = none)
    (hfind : findSchemaCall schema (env.oracle k) = some tc)
    (hempty : tc.args = []) :
    (generate_structured_output env m0 schema tools (k + fuel + 2)).result
        = .err .malformedStructuredCall ∧
    (generate_structured_output env m0 schema tools (k + fuel + 2)).calls
        = iterCalls env tools m0 k ∧
    (generate_structured_output env m0 schema tools (k + fuel + 2)).calls.length = k + 1 := by
  have hB : 1 ≤ k + fuel + 2 := by omega
  have he : tc.args.isEmpty = true := by simp [hempty]
  rw [gso_with_tools env m0 schema tools _ hB htools]
  have e : k + fuel + 2 - 1 = k + (fuel + 1) := by omega
  rw [e, loopGo_iterate env schema tools m0 k hpre (fuel + 1)]
  simp [loopGo, hfind, he, iterCalls_length]

/-- Witness for C8 (amended): the empty-argument schema call arrives on
the first turn of a budget-2 run. -/
theorem c8_amended_first_schema_call_empty_args_fatal_witness :
    (generate_structured_output envEmptySchema msgs0 bookSchema [addTool] (0 + 0 + 2)).result
        = .err .malformedStructuredCall ∧
    (generate_structured_output envEmptySchema msgs0 bookSchema [addTool] (0 + 0 + 2)).calls
        = iterCalls envEmptySchema [addTool] msgs0 0 ∧
    (generate_structured_output envEmptySchema msgs0 bookSchema [addTool] (0 + 0 + 2)).calls.length
        = 0 + 1 :=
  c8_amended_first_schema_call_empty_args_fatal envEmptySchema bookSchema [addTool] msgs0 0 0
    schemaEmptyReq (by simp)
    (by intro i hi; exact absurd hi (Nat.not_lt_zero i))
    (by rfl) (by rfl)

end StructuredToolAgent
